import Mathlib

/-!
Verification development for the SDN-DDoS dataset-generation controller
(`ryu_controller.py`).  The definitions below are a shallow embedding of the
flow telemetry and labeling engine: the flow-stats reply handler with its
derived-metric computation, the flow-identity derivation, the ground-truth
labeling function, and the REST endpoint that marks attacker addresses.

Python floats (timestamps, durations, rates) are modelled as rationals; the
arithmetic performed by the code (sums, differences, divisions of counter
values and time stamps) is exact on the inputs considered, so `ℚ` is a
faithful carrier.  Counters, ports and ids are naturals, as delivered by the
OpenFlow layer; subtraction of counters is performed in `ℚ` after casting,
matching Python's unbounded-integer subtraction.
-/

namespace SDNDDoS

/-- Optional match fields of one flow rule, as read by
`stat.match.get(...)` in `_flow_stats_reply_handler` and
`_generate_flow_id`.  `none` models an absent key in the match dict. -/
structure OFMatch where
  ipv4Src : Option String
  ipv4Dst : Option String
  tcpSrc : Option ℕ
  udpSrc : Option ℕ
  tcpDst : Option ℕ
  udpDst : Option ℕ
  ipProto : Option ℕ
deriving DecidableEq, Repr

/-- `stat.match.get('ipv4_src', '0.0.0.0')`. -/
def OFMatch.srcIp (m : OFMatch) : String := m.ipv4Src.getD "0.0.0.0"

/-- `stat.match.get('ipv4_dst', '0.0.0.0')`. -/
def OFMatch.dstIp (m : OFMatch) : String := m.ipv4Dst.getD "0.0.0.0"

/-- `stat.match.get('tcp_src', stat.match.get('udp_src', 0))`. -/
def OFMatch.srcPort (m : OFMatch) : ℕ := m.tcpSrc.getD (m.udpSrc.getD 0)

/-- `stat.match.get('tcp_dst', stat.match.get('udp_dst', 0))`. -/
def OFMatch.dstPort (m : OFMatch) : ℕ := m.tcpDst.getD (m.udpDst.getD 0)

/-- `stat.match.get('ip_proto', 0)`. -/
def OFMatch.protocol (m : OFMatch) : ℕ := m.ipProto.getD 0

/-- One record of an `OFPFlowStatsReply` body, with the fields the handler
reads. -/
structure FlowStat where
  matchFields : OFMatch
  durationSec : ℕ
  durationNsec : ℕ
  idleTimeout : ℕ
  hardTimeout : ℕ
  priority : ℕ
  packetCount : ℕ
  byteCount : ℕ
deriving DecidableEq, Repr

/-- The snapshot stored in `self.flow_history[flow_id]`:
`{'timestamp': current_time, 'packet_count': ..., 'byte_count': ...}`. -/
structure PrevStat where
  timestamp : ℚ
  packetCount : ℕ
  byteCount : ℕ
deriving DecidableEq, Repr

/-- `duration = stat.duration_sec + stat.duration_nsec / 1e9`. -/
def FlowStat.duration (stat : FlowStat) : ℚ :=
  (stat.durationSec : ℚ) + (stat.durationNsec : ℚ) / 1000000000

/-- The derived metrics computed for one record in
`_flow_stats_reply_handler` (lines 259-273). -/
structure Metrics where
  packetRate : ℚ
  byteRate : ℚ
  flowSpeed : ℚ
  flowIat : ℚ
  bytesPerPacket : ℚ
deriving DecidableEq, Repr

/-- The metric computation of `_flow_stats_reply_handler`:

    if prev_stat and duration > 0:
        time_diff = current_time - prev_stat['timestamp']
        packet_rate = (stat.packet_count - prev_stat['packet_count']) / time_diff if time_diff > 0 else 0
        byte_rate = (stat.byte_count - prev_stat['byte_count']) / time_diff if time_diff > 0 else 0
        flow_speed = packet_rate
        flow_iat = time_diff
    else:
        packet_rate = stat.packet_count / duration if duration > 0 else 0
        byte_rate = stat.byte_count / duration if duration > 0 else 0
        flow_speed = packet_rate
        flow_iat = 0
    bytes_per_packet = stat.byte_count / stat.packet_count if stat.packet_count > 0 else 0

A stored snapshot dict is never empty, so Python's truthiness test
`prev_stat and ...` is `prev_stat is not None and ...`. -/
def computeMetrics (currentTime : ℚ) (stat : FlowStat) (prev? : Option PrevStat) :
    Metrics :=
  let duration := stat.duration
  match prev? with
  | some prev =>
    if duration > 0 then
      let timeDiff := currentTime - prev.timestamp
      let packetRate :=
        if timeDiff > 0 then ((stat.packetCount : ℚ) - (prev.packetCount : ℚ)) / timeDiff else 0
      let byteRate :=
        if timeDiff > 0 then ((stat.byteCount : ℚ) - (prev.byteCount : ℚ)) / timeDiff else 0
      { packetRate := packetRate
        byteRate := byteRate
        flowSpeed := packetRate
        flowIat := timeDiff
        bytesPerPacket :=
          if stat.packetCount > 0 then (stat.byteCount : ℚ) / (stat.packetCount : ℚ) else 0 }
    else
      { packetRate := if duration > 0 then (stat.packetCount : ℚ) / duration else 0
        byteRate := if duration > 0 then (stat.byteCount : ℚ) / duration else 0
        flowSpeed := if duration > 0 then (stat.packetCount : ℚ) / duration else 0
        flowIat := 0
        bytesPerPacket :=
          if stat.packetCount > 0 then (stat.byteCount : ℚ) / (stat.packetCount : ℚ) else 0 }
  | none =>
    { packetRate := if duration > 0 then (stat.packetCount : ℚ) / duration else 0
      byteRate := if duration > 0 then (stat.byteCount : ℚ) / duration else 0
      flowSpeed := if duration > 0 then (stat.packetCount : ℚ) / duration else 0
      flowIat := 0
      bytesPerPacket :=
        if stat.packetCount > 0 then (stat.byteCount : ℚ) / (stat.packetCount : ℚ) else 0 }

/-- Division that refuses a zero denominator, used to express that every
division the handler performs is guarded. -/
def checkedDiv (a b : ℚ) : Option ℚ :=
  if b = 0 then none else some (a / b)

/-- The same computation as `computeMetrics`, but every division goes
through `checkedDiv`; the result is `none` exactly when some division in
the taken branch would divide by zero. -/
def computeMetricsChecked (currentTime : ℚ) (stat : FlowStat) (prev? : Option PrevStat) :
    Option Metrics := do
  let duration ← (do
    let frac ← checkedDiv (stat.durationNsec : ℚ) 1000000000
    pure ((stat.durationSec : ℚ) + frac))
  let bytesPerPacket ←
    if stat.packetCount > 0 then checkedDiv (stat.byteCount : ℚ) (stat.packetCount : ℚ)
    else pure 0
  match prev? with
  | some prev =>
    if duration > 0 then do
      let timeDiff := currentTime - prev.timestamp
      let packetRate ←
        if timeDiff > 0 then
          checkedDiv ((stat.packetCount : ℚ) - (prev.packetCount : ℚ)) timeDiff
        else pure 0
      let byteRate ←
        if timeDiff > 0 then
          checkedDiv ((stat.byteCount : ℚ) - (prev.byteCount : ℚ)) timeDiff
        else pure 0
      pure ⟨packetRate, byteRate, packetRate, timeDiff, bytesPerPacket⟩
    else do
      let packetRate ←
        if duration > 0 then checkedDiv (stat.packetCount : ℚ) duration else pure 0
      let byteRate ←
        if duration > 0 then checkedDiv (stat.byteCount : ℚ) duration else pure 0
      pure ⟨packetRate, byteRate, packetRate, 0, bytesPerPacket⟩
  | none => do
    let packetRate ←
      if duration > 0 then checkedDiv (stat.packetCount : ℚ) duration else pure 0
    let byteRate ←
      if duration > 0 then checkedDiv (stat.byteCount : ℚ) duration else pure 0
    pure ⟨packetRate, byteRate, packetRate, 0, bytesPerPacket⟩

/-! ### Attacker registry and labeling -/

/-- A hashable JSON atom: a string or a number.  Only hashable values can
ever enter the attacker set, because `mark_attacker` hashes the value in
its membership test before adding it. -/
inductive JVal where
  | str (s : String)
  | num (n : ℤ)
deriving DecidableEq, Repr

/-- `self.attacker_ips`: a set of marked values.  Python sets are observed
only through membership, addition and size, so a duplicate-free insertion
list is a faithful model. -/
abbrev Registry := List JVal

/-- One element of a decoded JSON array bound to `ips`: a hashable atom,
or an unhashable composite — a nested array or object.  The endpoint
never inspects a composite beyond hashing it (which raises `TypeError`),
so one level of structure is retained only to distinguish payloads. -/
inductive JElem where
  | atom (a : JVal)
  | arr (xs : List JVal)
  | obj (kvs : List (String × JVal))
deriving DecidableEq, Repr

/-- Whether a Python set can hold the value: atoms hash; lists and dicts
raise `TypeError` when hashed. -/
def JElem.hashable : JElem → Bool
  | .atom _ => true
  | .arr _ => false
  | .obj _ => false

/-- `mark_attacker`: the membership test
`if ip_address not in self.attacker_ips:` hashes the value first, so an
unhashable value raises `TypeError` before the set is touched; a hashable
value is added unless already present. -/
def mark_attacker (s : Registry) (ip : JElem) : Except Unit Registry :=
  match ip with
  | .atom a => .ok (if a ∈ s then s else s ++ [a])
  | .arr _ => .error ()
  | .obj _ => .error ()

/-- The `for ip in ips: self.collector_app.mark_attacker(ip)` loop: a
raised `TypeError` ends the loop, keeping the elements marked before it;
the boolean records that an exception escaped the loop. -/
def markAll (s : Registry) : List JElem → Registry × Bool
  | [] => (s, false)
  | ip :: rest =>
    match mark_attacker s ip with
    | .ok s' => markAll s' rest
    | .error _ => (s, true)

/-- `clear_attackers`: empty the set, returning the previous size. -/
def clear_attackers (s : Registry) : ℕ × Registry :=
  (s.length, [])

/-- `_label_flow(src_ip)`: `1` if `src_ip in self.attacker_ips` else `0`.
The registry may hold non-string values (the REST endpoint does not
validate elements); a string source address is in the set iff the set
holds it as a string. -/
def label_flow (attackerIps : Registry) (srcIp : String) : ℕ :=
  if JVal.str srcIp ∈ attackerIps then 1 else 0

/-! ### REST endpoint `POST /ddos/attackers` -/

/-- The value bound to a key of the decoded JSON object: a list of
elements, a non-list atom, or a non-list object.  `isinstance(ips, list)`
is the only shape inspection the endpoint performs on it. -/
inductive JField where
  | list (xs : List JElem)
  | atom (a : JVal)
  | obj (kvs : List (String × JVal))
deriving DecidableEq, Repr

/-- The request body as seen by `post_attackers` after `json.loads`:
undecodable bytes raise in `json.loads`; a decodable body that is not an
object makes `body.get` raise; an object is a key/value list (later
bindings shadow earlier ones, as in Python's JSON decoding). -/
inductive ReqBody where
  | notJson
  | nonObject
  | object (kvs : List (String × JField))
deriving DecidableEq, Repr

/-- Lookup in a decoded JSON object: the last binding of the key wins. -/
def dictGet (kvs : List (String × JField)) (k : String) : Option JField :=
  (kvs.reverse.find? (fun p => p.1 = k)).map (·.2)

/-- Outcome of one REST call: HTTP status, the count reported on success
(`Marked {len(ips)} IPs`), and the registry after the call. -/
structure RestResult where
  status : ℕ
  marked : Option ℕ
  registry : Registry
deriving DecidableEq, Repr

/-- `DDoSControllerREST.post_attackers`:

    body = json.loads(req.body...)          -- failure → except → 500
    ips = body.get('ips', [])               -- body not a dict → except → 500
    if not isinstance(ips, list): return 400
    for ip in ips: self.collector_app.mark_attacker(ip)
    return 200, "Marked {len(ips)} IPs as attackers."

A `TypeError` raised inside the loop (an unhashable list element) is
caught by the surrounding `except Exception` and answered with 500; the
elements marked before it stay in the registry. -/
def post_attackers (registry : Registry) (body : ReqBody) : RestResult :=
  match body with
  | .notJson => ⟨500, none, registry⟩
  | .nonObject => ⟨500, none, registry⟩
  | .object kvs =>
    match (dictGet kvs "ips").getD (.list []) with
    | .atom _ => ⟨400, none, registry⟩
    | .obj _ => ⟨400, none, registry⟩
    | .list xs =>
      match markAll registry xs with
      | (reg', false) => ⟨200, some xs.length, reg'⟩
      | (reg', true) => ⟨500, none, reg'⟩

/-! ### Flow identity (`_generate_flow_id`)

The f-string `f"{dpid}_{src_ip}_{dst_ip}_{src_port}_{dst_port}_{protocol}"`
renders the numeric fields with Python's `str(int)` (decimal, no sign for
the naturals delivered by OpenFlow) and joins the six fields with `_`.
Strings are modelled by their character lists. -/

/-- Python's `str` on a natural number: decimal digits, most significant
first, `"0"` for zero. -/
def natStr (n : ℕ) : List Char :=
  if n = 0 then ['0'] else ((Nat.digits 10 n).reverse.map Nat.digitChar)

/-- The character list of the flow identifier
`f"{dpid}_{src_ip}_{dst_ip}_{src_port}_{dst_port}_{protocol}"`. -/
def flowIdChars (dpid : ℕ) (srcIp dstIp : String) (srcPort dstPort protocol : ℕ) :
    List Char :=
  natStr dpid ++ '_' ::
    (srcIp.data ++ '_' ::
      (dstIp.data ++ '_' ::
        (natStr srcPort ++ '_' ::
          (natStr dstPort ++ '_' :: natStr protocol))))

/-- The flow identity derived from an already-extracted match tuple
(absent fields replaced by the canonical defaults). -/
def flowIdOfTuple (dpid : ℕ) (srcIp dstIp : String) (srcPort dstPort protocol : ℕ) :
    String :=
  ⟨flowIdChars dpid srcIp dstIp srcPort dstPort protocol⟩

/-- `_generate_flow_id(stat, dpid)`: extract the six components with their
defaults and join them. -/
def generate_flow_id (m : OFMatch) (dpid : ℕ) : String :=
  flowIdOfTuple dpid m.srcIp m.dstIp m.srcPort m.dstPort m.protocol

/-- Reading a decimal character list back to a number (left inverse of
`natStr`). -/
def charsToNat (l : List Char) : ℕ :=
  Nat.ofDigits 10 ((l.map (fun c => c.toNat - 48)).reverse)

/-! ### The flow-stats reply handler (`_flow_stats_reply_handler`)

The handler iterates over the records of one reply body.  A record with
priority 0 is skipped.  Otherwise the handler derives the flow id, reads
the previous snapshot from `flow_history`, computes the metrics, labels
the flow, appends one CSV row and overwrites the history entry.  The CSV
append (`open(...); writer.writerow(row)`) can raise; the handler has no
try/except, so a raised exception propagates and ends the processing of
this reply.  I/O success is modelled by an oracle indexed by the number of
append attempts made so far. -/

/-- `self.flow_history`: most recent binding of a key wins.  -/
abbrev FlowHistory := List (String × PrevStat)

/-- `self.flow_history.get(flow_id, None)`. -/
def historyGet (h : FlowHistory) (k : String) : Option PrevStat :=
  (h.find? (fun p => p.1 = k)).map (·.2)

/-- `self.flow_history[flow_id] = {...}`: unconditional overwrite. -/
def historyPut (h : FlowHistory) (k : String) (v : PrevStat) : FlowHistory :=
  (k, v) :: h

/-- One dataset row, with the columns the handler writes (the wall-clock
`datetime.now().isoformat()` column is an opaque ambient string and is not
modelled; no claim concerns it). -/
structure Row where
  datapathId : ℕ
  flowId : String
  srcIp : String
  dstIp : String
  srcPort : ℕ
  dstPort : ℕ
  protocol : ℕ
  durationSec : ℕ
  durationNsec : ℕ
  idleTimeout : ℕ
  hardTimeout : ℕ
  priority : ℕ
  packetCount : ℕ
  byteCount : ℕ
  packetRate : ℚ
  byteRate : ℚ
  flowSpeed : ℚ
  packetsPerFlow : ℕ
  bytesPerPacket : ℚ
  bytesPerFlow : ℕ
  flowDuration : ℚ
  flowIat : ℚ
  activeTime : ℚ
  label : ℕ
deriving DecidableEq, Repr

/-- The row assembled for one record (lines 279-291 of the handler). -/
def mkRow (currentTime : ℚ) (dpid : ℕ) (attackerIps : Registry)
    (stat : FlowStat) (prev? : Option PrevStat) : Row :=
  let metrics := computeMetrics currentTime stat prev?
  { datapathId := dpid
    flowId := generate_flow_id stat.matchFields dpid
    srcIp := stat.matchFields.srcIp
    dstIp := stat.matchFields.dstIp
    srcPort := stat.matchFields.srcPort
    dstPort := stat.matchFields.dstPort
    protocol := stat.matchFields.protocol
    durationSec := stat.durationSec
    durationNsec := stat.durationNsec
    idleTimeout := stat.idleTimeout
    hardTimeout := stat.hardTimeout
    priority := stat.priority
    packetCount := stat.packetCount
    byteCount := stat.byteCount
    packetRate := metrics.packetRate
    byteRate := metrics.byteRate
    flowSpeed := metrics.flowSpeed
    packetsPerFlow := stat.packetCount
    bytesPerPacket := metrics.bytesPerPacket
    bytesPerFlow := stat.byteCount
    flowDuration := stat.duration
    flowIat := metrics.flowIat
    activeTime := stat.duration
    label := label_flow attackerIps stat.matchFields.srcIp }

/-- Mutable state touched by one reply's processing: the flow history, the
rows appended to the CSV file so far, and the number of append attempts
made (the oracle's clock). -/
structure HandlerState where
  history : FlowHistory
  rows : List Row
  attempts : ℕ
deriving DecidableEq, Repr

/-- Process the records of one reply body in order.  `ioOk n` tells whether
the `n`-th CSV append attempt succeeds.  The boolean result records whether
an exception escaped the handler: a failed append raises, writes nothing,
leaves the history entry unwritten and stops the iteration (there is no
per-row try/except in the source). -/
def flow_stats_reply_handler (ioOk : ℕ → Bool) (currentTime : ℚ) (dpid : ℕ)
    (attackerIps : Registry) : HandlerState → List FlowStat → HandlerState × Bool
  | s, [] => (s, false)
  | s, stat :: rest =>
    if stat.priority = 0 then
      flow_stats_reply_handler ioOk currentTime dpid attackerIps s rest
    else
      let flowId := generate_flow_id stat.matchFields dpid
      let prev? := historyGet s.history flowId
      let row := mkRow currentTime dpid attackerIps stat prev?
      if ioOk s.attempts then
        flow_stats_reply_handler ioOk currentTime dpid attackerIps
          { history := historyPut s.history flowId
              ⟨currentTime, stat.packetCount, stat.byteCount⟩
            rows := s.rows ++ [row]
            attempts := s.attempts + 1 } rest
      else
        ({ s with attempts := s.attempts + 1 }, true)

/-! ## Auxiliary lemmas -/

theorem charsToNat_natStr (n : ℕ) : charsToNat (natStr n) = n := by
  unfold natStr charsToNat
  by_cases h : n = 0
  · subst h
    decide
  · simp only [h, if_false, List.map_map, List.map_reverse, List.reverse_reverse]
    have hmap : (Nat.digits 10 n).map ((fun c => c.toNat - 48) ∘ Nat.digitChar)
        = (Nat.digits 10 n).map id := by
      apply List.map_congr_left
      intro d hd
      have hd10 : d < 10 := Nat.digits_lt_base (by norm_num) hd
      interval_cases d <;> rfl
    rw [hmap, List.map_id, Nat.ofDigits_digits]

theorem natStr_injective : Function.Injective natStr := by
  intro m n h
  have := congrArg charsToNat h
  rwa [charsToNat_natStr, charsToNat_natStr] at this

theorem natStr_no_underscore (n : ℕ) : '_' ∉ natStr n := by
  unfold natStr
  by_cases h : n = 0
  · subst h; decide
  · simp only [h, if_false, List.mem_map, List.mem_reverse]
    rintro ⟨d, hd, heq⟩
    have hd10 : d < 10 := Nat.digits_lt_base (by norm_num) hd
    interval_cases d <;> exact absurd heq (by decide)

/-- Splitting a separator-framed concatenation: if neither left chunk
contains the separator, the chunks and the tails agree. -/
theorem sep_split {a b r r' : List Char}
    (ha : '_' ∉ a) (hb : '_' ∉ b)
    (h : a ++ '_' :: r = b ++ '_' :: r') : a = b ∧ r = r' := by
  induction a generalizing b with
  | nil =>
    cases b with
    | nil => simpa using h
    | cons c bs =>
      simp only [List.nil_append, List.cons_append, List.cons.injEq] at h
      exact absurd (h.1 ▸ List.mem_cons_self c bs) (h.1 ▸ hb)
  | cons c as ih =>
    cases b with
    | nil =>
      simp only [List.cons_append, List.nil_append, List.cons.injEq] at h
      exact absurd (h.1 ▸ List.mem_cons_self c as) (h.1 ▸ ha)
    | cons d bs =>
      simp only [List.cons_append, List.cons.injEq] at h
      obtain ⟨hcd, htail⟩ := h
      have ha' : '_' ∉ as := fun hm => ha (List.mem_cons_of_mem _ hm)
      have hb' : '_' ∉ bs := fun hm => hb (List.mem_cons_of_mem _ hm)
      obtain ⟨h1, h2⟩ := ih ha' hb' htail
      exact ⟨by rw [hcd, h1], h2⟩

theorem markAll_not_raised (xs : List JElem) :
    ∀ (s : Registry), (∀ e ∈ xs, e.hashable = true) → (markAll s xs).2 = false := by
  induction xs with
  | nil => intro s _; rfl
  | cons e rest ih =>
    intro s h
    cases e with
    | atom a =>
      simpa [markAll, mark_attacker] using
        ih _ (fun x hx => h x (List.mem_cons_of_mem _ hx))
    | arr l => exact absurd (h _ (List.mem_cons_self _ _)) (by simp [JElem.hashable])
    | obj l => exact absurd (h _ (List.mem_cons_self _ _)) (by simp [JElem.hashable])

theorem mem_markAll_mono (xs : List JElem) :
    ∀ (s : Registry) (a : JVal), a ∈ s → a ∈ (markAll s xs).1 := by
  induction xs with
  | nil => intro s a h; exact h
  | cons e rest ih =>
    intro s a h
    cases e with
    | atom b =>
      simp only [markAll, mark_attacker]
      by_cases hb : b ∈ s
      · simpa [hb] using ih s a h
      · simp only [hb, if_false]
        exact ih _ a (List.mem_append_left _ h)
    | arr l => simpa [markAll, mark_attacker] using h
    | obj l => simpa [markAll, mark_attacker] using h

theorem mem_markAll_self (xs : List JElem) :
    ∀ (s : Registry) (a : JVal), (∀ e ∈ xs, e.hashable = true) →
      JElem.atom a ∈ xs → a ∈ (markAll s xs).1 := by
  induction xs with
  | nil => intro s a _ hx; cases hx
  | cons e rest ih =>
    intro s a hh hx
    rcases List.mem_cons.mp hx with heq | hmem
    · cases heq.symm
      simp only [markAll, mark_attacker]
      by_cases ha : a ∈ s
      · simpa [ha] using mem_markAll_mono rest s a ha
      · simp only [ha, if_false]
        exact mem_markAll_mono rest _ a (by simp)
    · cases e with
      | atom b =>
        simp only [markAll, mark_attacker]
        exact ih _ a (fun x hx2 => hh x (List.mem_cons_of_mem _ hx2)) hmem
      | arr l => exact absurd (hh _ (List.mem_cons_self _ _)) (by simp [JElem.hashable])
      | obj l => exact absurd (hh _ (List.mem_cons_self _ _)) (by simp [JElem.hashable])

theorem markAll_raises (pre : List JElem) :
    ∀ (s : Registry) (u : JElem) (rest : List JElem),
      (∀ e ∈ pre, e.hashable = true) → u.hashable = false →
      (markAll s (pre ++ u :: rest)).2 = true
      ∧ ∀ a, JElem.atom a ∈ pre → a ∈ (markAll s (pre ++ u :: rest)).1 := by
  induction pre with
  | nil =>
    intro s u rest _ hu
    cases u with
    | atom a => simp [JElem.hashable] at hu
    | arr l => exact ⟨rfl, fun a ha => absurd ha (List.not_mem_nil _)⟩
    | obj l => exact ⟨rfl, fun a ha => absurd ha (List.not_mem_nil _)⟩
  | cons e pre ih =>
    intro s u rest hh hu
    cases e with
    | atom b =>
      have hrec := ih (if b ∈ s then s else s ++ [b]) u rest
        (fun x hx => hh x (List.mem_cons_of_mem _ hx)) hu
      constructor
      · simpa [markAll, mark_attacker] using hrec.1
      · intro a ha
        rcases List.mem_cons.mp ha with heq | hmem
        · obtain rfl : a = b := by cases heq; rfl
          simp only [List.cons_append, markAll, mark_attacker]
          by_cases hb : a ∈ s
          · simpa [hb] using mem_markAll_mono (pre ++ u :: rest) s a hb
          · simp only [hb, if_false]
            exact mem_markAll_mono (pre ++ u :: rest) _ a (by simp)
        · simpa [markAll, mark_attacker] using hrec.2 a hmem
    | arr l => exact absurd (hh _ (List.mem_cons_self _ _)) (by simp [JElem.hashable])
    | obj l => exact absurd (hh _ (List.mem_cons_self _ _)) (by simp [JElem.hashable])

/-! ## Claims -/

/-- Claim C2: the ground-truth label of every produced dataset row is `1`
when the attacker registry holds the record's source address and `0`
otherwise, regardless of every other input (counters, rates, timestamps,
previous snapshot). -/
theorem C2_ground_truth_label (currentTime : ℚ) (dpid : ℕ) (attackerIps : Registry)
    (stat : FlowStat) (prev? : Option PrevStat) :
    (mkRow currentTime dpid attackerIps stat prev?).label
      = if JVal.str stat.matchFields.srcIp ∈ attackerIps then 1 else 0 := rfl

/-- Claim C3: with a previous snapshot, no counter reset, positive duration
and positive elapsed time, the rates are the counter deltas divided by the
elapsed time. -/
theorem C3_delta_rates (currentTime : ℚ) (stat : FlowStat) (prev : PrevStat)
    (hdur : stat.duration > 0)
    (hreset : prev.packetCount ≤ stat.packetCount)
    (helapsed : 0 < currentTime - prev.timestamp) :
    (computeMetrics currentTime stat (some prev)).packetRate
        = ((stat.packetCount : ℚ) - (prev.packetCount : ℚ)) / (currentTime - prev.timestamp)
    ∧ (computeMetrics currentTime stat (some prev)).byteRate
        = ((stat.byteCount : ℚ) - (prev.byteCount : ℚ)) / (currentTime - prev.timestamp) := by
  unfold computeMetrics
  simp [hdur, helapsed]

/-- Witness for C3, the spec's concrete example: previous snapshot
`{t=0, packets=100, bytes=10000}`, current record at `t=2` with
`packets=300, bytes=30000` (rule duration 2s), giving `packet_rate = 100`
and `byte_rate = 10000`. -/
theorem C3_delta_rates_witness :
    (computeMetrics 2 ⟨⟨none, none, none, none, none, none, none⟩, 2, 0, 0, 0, 1, 300, 30000⟩
        (some ⟨0, 100, 10000⟩)).packetRate = 100
    ∧ (computeMetrics 2 ⟨⟨none, none, none, none, none, none, none⟩, 2, 0, 0, 0, 1, 300, 30000⟩
        (some ⟨0, 100, 10000⟩)).byteRate = 10000 := by
  have h := C3_delta_rates 2
    ⟨⟨none, none, none, none, none, none, none⟩, 2, 0, 0, 0, 1, 300, 30000⟩
    ⟨0, 100, 10000⟩ (by norm_num [FlowStat.duration]) (by norm_num) (by norm_num)
  refine ⟨?_, ?_⟩
  · rw [h.1]; norm_num
  · rw [h.2]; norm_num

/-- Claim C1 is false on the code: with previous snapshot
`{t=0, packets=200, bytes=20000}` and a current record at `t=2` with
`packets=100, bytes=10000` and rule duration 5s, the handler does not fall
back to duration-based averaging (which would give `100/5 = 20`); it keeps
the delta branch and produces `packet_rate = (100-200)/2 = -50 < 0` with
`flow_iat = 2 ≠ 0`. -/
theorem C1_counterexample :
    (computeMetrics 2 ⟨⟨none, none, none, none, none, none, none⟩, 5, 0, 0, 0, 1, 100, 10000⟩
        (some ⟨0, 200, 20000⟩)).packetRate = -50
    ∧ (computeMetrics 2 ⟨⟨none, none, none, none, none, none, none⟩, 5, 0, 0, 0, 1, 100, 10000⟩
        (some ⟨0, 200, 20000⟩)).packetRate < 0
    ∧ (computeMetrics 2 ⟨⟨none, none, none, none, none, none, none⟩, 5, 0, 0, 0, 1, 100, 10000⟩
        (some ⟨0, 200, 20000⟩)).flowIat = 2 := by
  refine ⟨?_, ?_, ?_⟩ <;>
    norm_num [computeMetrics, FlowStat.duration]

/-- Claim C1 amended: the metric computation has no counter-reset check.
When a previous snapshot exists, `duration > 0` and `elapsed > 0`, the
delta branch is taken even if the current packet count is below the stored
one, so the packet rate is the (negative) delta over the elapsed time and
the inter-arrival time is the elapsed time; the duration-based fallback is
used only when no previous snapshot exists or `duration = 0`. -/
theorem C1_reset_uses_delta (currentTime : ℚ) (stat : FlowStat) (prev : PrevStat)
    (hreset : stat.packetCount < prev.packetCount)
    (hdur : stat.duration > 0)
    (helapsed : 0 < currentTime - prev.timestamp) :
    (computeMetrics currentTime stat (some prev)).packetRate
        = ((stat.packetCount : ℚ) - (prev.packetCount : ℚ)) / (currentTime - prev.timestamp)
    ∧ (computeMetrics currentTime stat (some prev)).packetRate < 0
    ∧ (computeMetrics currentTime stat (some prev)).flowIat
        = currentTime - prev.timestamp := by
  have hrate : (computeMetrics currentTime stat (some prev)).packetRate
      = ((stat.packetCount : ℚ) - (prev.packetCount : ℚ)) / (currentTime - prev.timestamp) := by
    unfold computeMetrics
    simp [hdur, helapsed]
  have hneg : ((stat.packetCount : ℚ) - (prev.packetCount : ℚ)) < 0 := by
    have := Nat.cast_lt (α := ℚ) |>.mpr hreset
    linarith
  refine ⟨hrate, ?_, ?_⟩
  · rw [hrate]
    exact div_neg_of_neg_of_pos hneg helapsed
  · unfold computeMetrics
    simp [hdur]

/-- Witness for the amended C1 at the counterexample's input. -/
theorem C1_reset_uses_delta_witness :
    (computeMetrics 2 ⟨⟨none, none, none, none, none, none, none⟩, 5, 0, 0, 0, 1, 100, 10000⟩
        (some ⟨0, 200, 20000⟩)).packetRate
      = ((100 : ℚ) - 200) / (2 - 0)
    ∧ (computeMetrics 2 ⟨⟨none, none, none, none, none, none, none⟩, 5, 0, 0, 0, 1, 100, 10000⟩
        (some ⟨0, 200, 20000⟩)).packetRate < 0 := by
  have h := C1_reset_uses_delta 2
    ⟨⟨none, none, none, none, none, none, none⟩, 5, 0, 0, 0, 1, 100, 10000⟩
    ⟨0, 200, 20000⟩ (by norm_num) (by norm_num [FlowStat.duration]) (by norm_num)
  exact ⟨by rw [h.1]; norm_num, h.2.1⟩

/-- Claim C6: every division of the metric computation is guarded.  The
checked variant, whose divisions refuse zero denominators, always succeeds
and agrees with the computation; moreover `packet_count = 0` gives
`bytes_per_packet = 0`, and with no previous snapshot and `duration = 0`
both rates are `0` (the guard branch returns `0` instead of failing). -/
theorem C6_division_guards (currentTime : ℚ) (stat : FlowStat) (prev? : Option PrevStat) :
    computeMetricsChecked currentTime stat prev?
        = some (computeMetrics currentTime stat prev?)
    ∧ (stat.packetCount = 0 →
        (computeMetrics currentTime stat prev?).bytesPerPacket = 0)
    ∧ (prev? = none → stat.duration = 0 →
        (computeMetrics currentTime stat prev?).packetRate = 0
        ∧ (computeMetrics currentTime stat prev?).byteRate = 0) := by
  have h9 : (1000000000 : ℚ) ≠ 0 := by norm_num
  refine ⟨?_, ?_, ?_⟩
  · rcases prev? with _ | prev
    · by_cases hd : (0:ℚ) < (stat.durationSec : ℚ) + (stat.durationNsec : ℚ) / 1000000000
      · have hd' : ((stat.durationSec : ℚ) + (stat.durationNsec : ℚ) / 1000000000) ≠ 0 := hd.ne'
        by_cases hp : 0 < stat.packetCount
        · have hp' : (stat.packetCount : ℚ) ≠ 0 := (Nat.cast_pos.mpr hp).ne'
          simp [computeMetricsChecked, computeMetrics, checkedDiv, FlowStat.duration,
            h9, hd, hd', hp, hp']
        · simp [computeMetricsChecked, computeMetrics, checkedDiv, FlowStat.duration,
            h9, hd, hd', hp]
      · by_cases hp : 0 < stat.packetCount
        · have hp' : (stat.packetCount : ℚ) ≠ 0 := (Nat.cast_pos.mpr hp).ne'
          simp [computeMetricsChecked, computeMetrics, checkedDiv, FlowStat.duration,
            h9, hd, hp, hp']
        · simp [computeMetricsChecked, computeMetrics, checkedDiv, FlowStat.duration,
            h9, hd, hp]
    · by_cases hd : (0:ℚ) < (stat.durationSec : ℚ) + (stat.durationNsec : ℚ) / 1000000000
      · have hd' : ((stat.durationSec : ℚ) + (stat.durationNsec : ℚ) / 1000000000) ≠ 0 := hd.ne'
        by_cases ht : 0 < currentTime - prev.timestamp
        · have ht' : currentTime - prev.timestamp ≠ 0 := ht.ne'
          by_cases hp : 0 < stat.packetCount
          · have hp' : (stat.packetCount : ℚ) ≠ 0 := (Nat.cast_pos.mpr hp).ne'
            simp [computeMetricsChecked, computeMetrics, checkedDiv, FlowStat.duration,
              h9, hd, hd', ht, ht', hp, hp']
          · simp [computeMetricsChecked, computeMetrics, checkedDiv, FlowStat.duration,
              h9, hd, hd', ht, ht', hp]
        · by_cases hp : 0 < stat.packetCount
          · have hp' : (stat.packetCount : ℚ) ≠ 0 := (Nat.cast_pos.mpr hp).ne'
            simp [computeMetricsChecked, computeMetrics, checkedDiv, FlowStat.duration,
              h9, hd, hd', ht, hp, hp']
          · simp [computeMetricsChecked, computeMetrics, checkedDiv, FlowStat.duration,
              h9, hd, hd', ht, hp]
      · by_cases hp : 0 < stat.packetCount
        · have hp' : (stat.packetCount : ℚ) ≠ 0 := (Nat.cast_pos.mpr hp).ne'
          simp [computeMetricsChecked, computeMetrics, checkedDiv, FlowStat.duration,
            h9, hd, hp, hp']
        · simp [computeMetricsChecked, computeMetrics, checkedDiv, FlowStat.duration,
            h9, hd, hp]
  · intro hp
    rcases prev? with _ | prev
    · simp [computeMetrics, hp]
    · simp only [computeMetrics]
      split_ifs <;> simp [hp]
  · rintro rfl hd
    unfold computeMetrics
    simp [hd]

/-- Witness for C6: a first observation (no previous snapshot) with zero
duration and zero packet count. -/
theorem C6_division_guards_witness :
    computeMetricsChecked 5 ⟨⟨none, none, none, none, none, none, none⟩, 0, 0, 0, 0, 1, 0, 0⟩ none
        = some (computeMetrics 5 ⟨⟨none, none, none, none, none, none, none⟩, 0, 0, 0, 0, 1, 0, 0⟩ none)
    ∧ (computeMetrics 5 ⟨⟨none, none, none, none, none, none, none⟩, 0, 0, 0, 0, 1, 0, 0⟩
        none).bytesPerPacket = 0
    ∧ (computeMetrics 5 ⟨⟨none, none, none, none, none, none, none⟩, 0, 0, 0, 0, 1, 0, 0⟩
        none).packetRate = 0
    ∧ (computeMetrics 5 ⟨⟨none, none, none, none, none, none, none⟩, 0, 0, 0, 0, 1, 0, 0⟩
        none).byteRate = 0 := by
  have h := C6_division_guards 5
    ⟨⟨none, none, none, none, none, none, none⟩, 0, 0, 0, 0, 1, 0, 0⟩ none
  have hd : FlowStat.duration
      ⟨⟨none, none, none, none, none, none, none⟩, 0, 0, 0, 0, 1, 0, 0⟩ = 0 := by
    norm_num [FlowStat.duration]
  exact ⟨h.1, h.2.1 rfl, (h.2.2 rfl hd).1, (h.2.2 rfl hd).2⟩

/-- Claim C8: a counter-reply record with priority 0 is excluded entirely:
processing the reply with it is processing the reply without it, so it
appends no row, assigns no label and leaves the flow history unchanged. -/
theorem C8_priority_zero_excluded (ioOk : ℕ → Bool) (currentTime : ℚ) (dpid : ℕ)
    (attackerIps : Registry) (s : HandlerState) (stat : FlowStat)
    (rest : List FlowStat) (hp : stat.priority = 0) :
    flow_stats_reply_handler ioOk currentTime dpid attackerIps s (stat :: rest)
      = flow_stats_reply_handler ioOk currentTime dpid attackerIps s rest := by
  simp [flow_stats_reply_handler, hp]

/-- Witness for C8: a reply holding only a priority-0 record leaves the
state untouched and raises nothing. -/
theorem C8_priority_zero_excluded_witness :
    flow_stats_reply_handler (fun _ => true) 7 1 [] ⟨[], [], 0⟩
        [⟨⟨none, none, none, none, none, none, none⟩, 3, 0, 0, 0, 0, 50, 5000⟩]
      = (⟨[], [], 0⟩, false) := by
  rw [C8_priority_zero_excluded (fun _ => true) 7 1 [] ⟨[], [], 0⟩
    ⟨⟨none, none, none, none, none, none, none⟩, 3, 0, 0, 0, 0, 50, 5000⟩ [] rfl]
  rfl

/-- Claim C10: a well-formed JSON object body without an `ips` key is
accepted: the endpoint returns status 200 reporting 0 marked addresses and
the registry is unchanged (the `.get('ips', [])` default is the empty
list). -/
theorem C10_missing_ips_key (registry : Registry) (kvs : List (String × JField))
    (h : "ips" ∉ kvs.map Prod.fst) :
    post_attackers registry (.object kvs) = ⟨200, some 0, registry⟩ := by
  have hfind : dictGet kvs "ips" = none := by
    unfold dictGet
    rw [List.find?_eq_none.mpr]
    · rfl
    · intro p hp
      simp only [decide_eq_true_eq]
      intro he
      exact h (he ▸ List.mem_map_of_mem Prod.fst (List.mem_reverse.mp hp))
  simp only [post_attackers]
  rw [hfind]
  rfl

/-- Witness for C10: an object with only an unrelated key. -/
theorem C10_missing_ips_key_witness :
    post_attackers [JVal.str "10.0.0.9"]
        (.object [("other", .list [.atom (.str "10.0.0.1")])])
      = ⟨200, some 0, [JVal.str "10.0.0.9"]⟩ :=
  C10_missing_ips_key [JVal.str "10.0.0.9"]
    [("other", .list [.atom (.str "10.0.0.1")])] (by decide)

/-- Claim C4 is false on the code as stated: the payload
`{"ips": [7]}` is well-formed JSON whose `ips` member is a list, but not a
list of addresses; the endpoint nevertheless answers 200 and adds the
number 7 to the attacker registry instead of failing with a validation
error and leaving the registry unchanged. -/
theorem C4_counterexample :
    (post_attackers [] (.object [("ips", .list [.atom (.num 7)])])).status = 200
    ∧ (post_attackers [] (.object [("ips", .list [.atom (.num 7)])])).registry ≠ [] := by
  decide

/-- Claim C4 amended: the endpoint validates only that the `ips` member is
a list, not that its elements are addresses.  A list member whose elements
are all hashable gives status 200, reports the list's length as the marked
count and enters every element into the registry (addresses or not); a
list member holding an unhashable element (a nested array or object)
raises `TypeError` at that element and answers 500, with the elements
marked before it kept — a partial mutation; a non-list member gives
status 400 with the registry unchanged; a body that is not a JSON object
raises and gives status 500 with the registry unchanged. -/
theorem C4_list_only_validation (registry : Registry) (kvs : List (String × JField)) :
    (∀ xs, dictGet kvs "ips" = some (.list xs) → (∀ e ∈ xs, e.hashable = true) →
        (post_attackers registry (.object kvs)).status = 200
        ∧ (post_attackers registry (.object kvs)).marked = some xs.length
        ∧ ∀ a, JElem.atom a ∈ xs → a ∈ (post_attackers registry (.object kvs)).registry)
    ∧ (∀ pre u rest, dictGet kvs "ips" = some (.list (pre ++ u :: rest)) →
        (∀ e ∈ pre, e.hashable = true) → u.hashable = false →
        (post_attackers registry (.object kvs)).status = 500
        ∧ (post_attackers registry (.object kvs)).marked = none
        ∧ ∀ a, JElem.atom a ∈ pre → a ∈ (post_attackers registry (.object kvs)).registry)
    ∧ (∀ a, dictGet kvs "ips" = some (.atom a) →
        (post_attackers registry (.object kvs)).status = 400
        ∧ (post_attackers registry (.object kvs)).registry = registry)
    ∧ (∀ okvs, dictGet kvs "ips" = some (.obj okvs) →
        (post_attackers registry (.object kvs)).status = 400
        ∧ (post_attackers registry (.object kvs)).registry = registry)
    ∧ ((post_attackers registry .notJson).status = 500
        ∧ (post_attackers registry .notJson).registry = registry
        ∧ (post_attackers registry .nonObject).status = 500
        ∧ (post_attackers registry .nonObject).registry = registry) := by
  refine ⟨?_, ?_, ?_, ?_, by simp [post_attackers]⟩
  · intro xs hxs hh
    have hok : (markAll registry xs).2 = false := markAll_not_raised xs registry hh
    have hmem : ∀ a, JElem.atom a ∈ xs → a ∈ (markAll registry xs).1 :=
      fun a ha => mem_markAll_self xs registry a hh ha
    rcases hm : markAll registry xs with ⟨reg', err⟩
    rw [hm] at hok hmem
    cases err with
    | true => simp at hok
    | false =>
      simp only [post_attackers, hxs, Option.getD_some, hm]
      exact ⟨trivial, trivial, fun a ha => hmem a ha⟩
  · intro pre u rest hxs hh hu
    have hra := markAll_raises pre registry u rest hh hu
    rcases hm : markAll registry (pre ++ u :: rest) with ⟨reg', err⟩
    rw [hm] at hra
    cases err with
    | false => simpa using hra.1
    | true =>
      simp only [post_attackers, hxs, Option.getD_some, hm]
      exact ⟨trivial, trivial, fun a ha => hra.2 a ha⟩
  · intro a ha
    simp only [post_attackers]
    rw [ha]
    exact ⟨rfl, rfl⟩
  · intro okvs ho
    simp only [post_attackers]
    rw [ho]
    exact ⟨rfl, rfl⟩

/-- Witness for the amended C4 on concrete payloads: an all-atom list
member marks its elements and reports their number; a list holding a
nested array after an address answers 500 with the address already
marked; a non-list member is rejected with 400 and no registry change. -/
theorem C4_list_only_validation_witness :
    (post_attackers []
        (.object [("ips", .list [.atom (.str "10.0.0.5"), .atom (.str "10.0.0.6")])])).status = 200
    ∧ (post_attackers []
        (.object [("ips", .list [.atom (.str "10.0.0.5"), .atom (.str "10.0.0.6")])])).marked
        = some 2
    ∧ JVal.str "10.0.0.5" ∈ (post_attackers []
        (.object [("ips", .list [.atom (.str "10.0.0.5"), .atom (.str "10.0.0.6")])])).registry
    ∧ (post_attackers []
        (.object [("ips", .list [.atom (.str "1.2.3.4"), .arr [.str "a"]])])).status = 500
    ∧ JVal.str "1.2.3.4" ∈ (post_attackers []
        (.object [("ips", .list [.atom (.str "1.2.3.4"), .arr [.str "a"]])])).registry
    ∧ (post_attackers [] (.object [("ips", .atom (.str "10.0.0.5"))])).status = 400
    ∧ (post_attackers [] (.object [("ips", .atom (.str "10.0.0.5"))])).registry = [] := by
  have h1 := (C4_list_only_validation []
    [("ips", .list [.atom (.str "10.0.0.5"), .atom (.str "10.0.0.6")])]).1
    [.atom (.str "10.0.0.5"), .atom (.str "10.0.0.6")] rfl (by decide)
  have h2 := (C4_list_only_validation []
    [("ips", .list [.atom (.str "1.2.3.4"), .arr [.str "a"]])]).2.1
    [.atom (.str "1.2.3.4")] (.arr [.str "a"]) [] rfl (by decide) (by decide)
  have h3 := (C4_list_only_validation [] [("ips", .atom (.str "10.0.0.5"))]).2.2.1
    (.str "10.0.0.5") rfl
  exact ⟨h1.1, h1.2.1, h1.2.2 (JVal.str "10.0.0.5") (by decide),
    h2.1, h2.2.2 (JVal.str "1.2.3.4") (by decide), h3.1, h3.2⟩

/-- Claim C5 is false on the code as stated: with a sink whose first append
attempt fails (and later attempts would succeed) and a reply of two
priority-1 records, the failing row is not merely skipped — the exception
propagates, the second record is never processed, and no row at all is
written. -/
theorem C5_counterexample :
    (flow_stats_reply_handler (fun n => decide (0 < n)) 1 1 [] ⟨[], [], 0⟩
        [⟨⟨none, none, none, none, none, none, none⟩, 1, 0, 0, 0, 1, 10, 100⟩,
         ⟨⟨none, none, none, none, none, none, none⟩, 1, 0, 0, 0, 1, 20, 200⟩]).1.rows = []
    ∧ (flow_stats_reply_handler (fun n => decide (0 < n)) 1 1 [] ⟨[], [], 0⟩
        [⟨⟨none, none, none, none, none, none, none⟩, 1, 0, 0, 0, 1, 10, 100⟩,
         ⟨⟨none, none, none, none, none, none, none⟩, 1, 0, 0, 0, 1, 20, 200⟩]).2 = true := by
  constructor
  · rfl
  · rfl

/-- Claim C5 amended: the handler has no per-row exception handling, so a
failed append aborts the processing of the reply: the failing record and
all remaining records contribute no row and no history update, the rows
appended before the failure are untouched, and the exception escapes the
handler. -/
theorem C5_row_failure_aborts_batch (ioOk : ℕ → Bool) (currentTime : ℚ) (dpid : ℕ)
    (attackerIps : Registry) (s : HandlerState) (stat : FlowStat)
    (rest : List FlowStat) (hp : stat.priority ≠ 0)
    (hio : ioOk s.attempts = false) :
    flow_stats_reply_handler ioOk currentTime dpid attackerIps s (stat :: rest)
      = ({ s with attempts := s.attempts + 1 }, true) := by
  unfold flow_stats_reply_handler
  simp [hp, hio]

/-- Witness for the amended C5: one previously-written row survives a
failing append untouched, and the remaining record is dropped. -/
theorem C5_row_failure_aborts_batch_witness :
    flow_stats_reply_handler (fun _ => false) 1 1 [] ⟨[], [], 3⟩
        [⟨⟨none, none, none, none, none, none, none⟩, 1, 0, 0, 0, 1, 10, 100⟩,
         ⟨⟨none, none, none, none, none, none, none⟩, 1, 0, 0, 0, 1, 20, 200⟩]
      = (⟨[], [], 4⟩, true) :=
  C5_row_failure_aborts_batch (fun _ => false) 1 1 [] ⟨[], [], 3⟩
    ⟨⟨none, none, none, none, none, none, none⟩, 1, 0, 0, 0, 1, 10, 100⟩
    [⟨⟨none, none, none, none, none, none, none⟩, 1, 0, 0, 0, 1, 20, 200⟩]
    (by decide) rfl

/-- Claim C7: two derived flow identities are equal iff all six components
of the match tuples are equal.  The address components of a match tuple
are IPv4 dotted-quad renderings (or the canonical default `0.0.0.0`), so
they never contain the `_` separator; this is recorded as the hypotheses
on the address strings. -/
theorem C7_flow_identity_eq_iff
    (dpid₁ dpid₂ sp₁ sp₂ dp₁ dp₂ pr₁ pr₂ : ℕ) (src₁ src₂ dst₁ dst₂ : String)
    (h₁ : '_' ∉ src₁.data) (h₂ : '_' ∉ src₂.data)
    (h₃ : '_' ∉ dst₁.data) (h₄ : '_' ∉ dst₂.data) :
    flowIdOfTuple dpid₁ src₁ dst₁ sp₁ dp₁ pr₁ = flowIdOfTuple dpid₂ src₂ dst₂ sp₂ dp₂ pr₂
      ↔ (dpid₁ = dpid₂ ∧ src₁ = src₂ ∧ dst₁ = dst₂
          ∧ sp₁ = sp₂ ∧ dp₁ = dp₂ ∧ pr₁ = pr₂) := by
  constructor
  · intro h
    have hc : flowIdChars dpid₁ src₁ dst₁ sp₁ dp₁ pr₁
        = flowIdChars dpid₂ src₂ dst₂ sp₂ dp₂ pr₂ := congrArg String.data h
    unfold flowIdChars at hc
    obtain ⟨e1, hc⟩ := sep_split (natStr_no_underscore dpid₁) (natStr_no_underscore dpid₂) hc
    obtain ⟨e2, hc⟩ := sep_split h₁ h₂ hc
    obtain ⟨e3, hc⟩ := sep_split h₃ h₄ hc
    obtain ⟨e4, hc⟩ := sep_split (natStr_no_underscore sp₁) (natStr_no_underscore sp₂) hc
    obtain ⟨e5, e6⟩ := sep_split (natStr_no_underscore dp₁) (natStr_no_underscore dp₂) hc
    refine ⟨natStr_injective e1, ?_, ?_,
      natStr_injective e4, natStr_injective e5, natStr_injective e6⟩
    · cases src₁; cases src₂; exact congrArg String.mk e2
    · cases dst₁; cases dst₂; exact congrArg String.mk e3
  · rintro ⟨rfl, rfl, rfl, rfl, rfl, rfl⟩
    rfl

/-- Witness for C7: equal tuples give the same identity, and tuples
differing only in the destination address give different identities. -/
theorem C7_flow_identity_eq_iff_witness :
    ('_' ∉ "10.0.0.1".data ∧ '_' ∉ "10.0.0.2".data ∧ '_' ∉ "10.0.0.3".data)
    ∧ flowIdOfTuple 1 "10.0.0.1" "10.0.0.2" 80 443 6
        = flowIdOfTuple 1 "10.0.0.1" "10.0.0.2" 80 443 6
    ∧ flowIdOfTuple 1 "10.0.0.1" "10.0.0.2" 80 443 6
        ≠ flowIdOfTuple 1 "10.0.0.1" "10.0.0.3" 80 443 6 := by
  refine ⟨by decide, ?_, ?_⟩
  · exact (C7_flow_identity_eq_iff 1 1 80 80 443 443 6 6 "10.0.0.1" "10.0.0.1"
      "10.0.0.2" "10.0.0.2" (by decide) (by decide) (by decide) (by decide)).mpr
      ⟨rfl, rfl, rfl, rfl, rfl, rfl⟩
  · intro h
    have hcomp := (C7_flow_identity_eq_iff 1 1 80 80 443 443 6 6 "10.0.0.1" "10.0.0.1"
      "10.0.0.2" "10.0.0.3" (by decide) (by decide) (by decide) (by decide)).mp h
    exact absurd hcomp.2.2.1 (by decide)

end SDNDDoS
